import Mathlib

/-!
Verification of the static PWA development server in `server.py`.

The server subclasses `http.server.SimpleHTTPRequestHandler`:
  * `end_headers` appends six fixed headers to the buffered header list
    and then calls the superclass completion step;
  * `do_GET` rewrites the request path to `/index.html` when the path is
    `/` or `os.path.exists(path[1:])` is false, then delegates;
  * `main(port)` serves until an `OSError` (bind failure, errno 48 meaning
    the port is in use) exits with code 1, or a `KeyboardInterrupt` exits
    with code 0;
  * the `__main__` block selects the port from the first CLI argument via
    `int(...)`, falling back to 8000 with a warning on `ValueError`.

The filesystem is modelled as a partial map from relative path strings to
entry kinds; `os.path.exists` is truth of the map, `os.path.isfile`
(the "regular file" of the specification, not used by the code) is the
map returning a regular-file entry.
-/

/-- Kind of a filesystem entry: a regular file, a directory, or anything
else (socket, fifo, ...). -/
inductive Entry
  | file
  | dir
  | other
  deriving DecidableEq

/-- A filesystem: which relative path strings name an entry, and of what
kind.  `Python`'s `os.path.exists("")` is always `False`, so models of a
real run satisfy `fs "" = none`; we keep that fact as a hypothesis where
a claim needs it. -/
abbrev FS := String → Option Entry

/-- `os.path.exists p` : some entry (of any kind) exists at `p`. -/
def osExists (fs : FS) (p : String) : Bool :=
  (fs p).isSome

/-- The specification's "a regular file exists at `p`"
(`os.path.isfile`); the source code itself never calls this. -/
def isRegularFile (fs : FS) (p : String) : Bool :=
  fs p == some Entry.file

/-- Python `p[1:]`: drop the first character. -/
def strip1 (s : String) : String :=
  s.drop 1

/-- HTTP methods the handler can receive.  Only `do_GET` is overridden in
the subclass; every other method is handled by the base class. -/
inductive Method
  | GET
  | HEAD
  | POST
  | OPTIONS
  | other
  deriving DecidableEq

namespace PWAHandler

/-- `self.send_header(k, v)`: append one header to the buffered list. -/
def sendHeader (buf : List (String × String)) (k v : String) :
    List (String × String) :=
  buf ++ [(k, v)]

/-- `PWAHandler.end_headers`: the six `send_header` calls performed by the
override, in source order, on the already-buffered headers; the final
buffer is then flushed by `super().end_headers()`. -/
def end_headers (buf : List (String × String)) : List (String × String) :=
  let buf := sendHeader buf "Cache-Control" "no-cache, no-store, must-revalidate"
  let buf := sendHeader buf "Pragma" "no-cache"
  let buf := sendHeader buf "Expires" "0"
  let buf := sendHeader buf "Access-Control-Allow-Origin" "*"
  let buf := sendHeader buf "Access-Control-Allow-Methods" "GET, POST, OPTIONS"
  let buf := sendHeader buf "Access-Control-Allow-Headers" "Content-Type"
  buf

/-- `PWAHandler.do_GET`: the path the override hands to
`super().do_GET()` — `/index.html` when the path is `/` or nothing exists
at `path[1:]`, the original path otherwise. -/
def do_GET (fs : FS) (p : String) : String :=
  if p == "/" || !osExists fs (strip1 p) then "/index.html" else p

/-- The path-resolution rule exactly as the specification words it, with
a regular-file test in place of the code's existence test (for
comparison with `do_GET`). -/
def do_GET_fileSpec (fs : FS) (p : String) : String :=
  if p == "/" || !isRegularFile fs (strip1 p) then "/index.html" else p

/-- The rewrite rule without the explicit root test (for the redundancy
claim about `p == "/"`). -/
def do_GET_noRoot (fs : FS) (p : String) : String :=
  if !osExists fs (strip1 p) then "/index.html" else p

/-- Which path reaches the base class for a given method: only GET goes
through the `do_GET` override; every other method is dispatched straight
to the base class with the path untouched. -/
def handledPath (fs : FS) (m : Method) (p : String) : String :=
  match m with
  | Method.GET => do_GET fs p
  | _ => p

end PWAHandler

/-- The six headers of §4.1 of the specification, in the listed order. -/
def pwaHeadersSpec : List (String × String) :=
  [("Cache-Control", "no-cache, no-store, must-revalidate"),
   ("Pragma", "no-cache"),
   ("Expires", "0"),
   ("Access-Control-Allow-Origin", "*"),
   ("Access-Control-Allow-Methods", "GET, POST, OPTIONS"),
   ("Access-Control-Allow-Headers", "Content-Type")]

/-- A full response: the base class (the delegate) produces a status and
a buffered header list from the method and the resolved path; the
override's `end_headers` then appends the fixed header set before the
header block is flushed. -/
def respond (fs : FS) (delegate : Method → String → Nat × List (String × String))
    (m : Method) (p : String) : Nat × List (String × String) :=
  let r := delegate m (PWAHandler.handledPath fs m p)
  (r.1, PWAHandler.end_headers r.2)

/-- A run of `main` ends in exactly one of two ways: `TCPServer` raises
`OSError` with some errno and message, or `serve_forever` is interrupted
by `KeyboardInterrupt`. -/
inductive RunEvent
  | bindError (errno : Int) (msg : String)
  | interrupt

namespace Server

/-- `main(port)`: the process exit code and the diagnostic lines printed
by the exception handlers (the startup banner precedes them and is
omitted).  The code treats `errno == 48` (`EADDRINUSE`) as
"port already in use". -/
def main (port : Int) (ev : RunEvent) : Int × List String :=
  match ev with
  | RunEvent.bindError errno msg =>
    if errno == 48 then
      (1, ["❌ Port " ++ toString port ++ " is already in use. Try a different port.",
           "💡 You can specify a different port: python3 server.py " ++ toString (port + 1)])
    else
      (1, ["❌ Error starting server: " ++ msg])
  | RunEvent.interrupt =>
    (0, ["\n🛑 Server stopped by user"])

end Server

/-- Strip leading and trailing whitespace from a character list, as
Python `int(...)` does to its string argument. -/
def pyStrip (cs : List Char) : List Char :=
  ((cs.dropWhile Char.isWhitespace).reverse.dropWhile Char.isWhitespace).reverse

/-- Digits of a decimal numeral, or `none` when the list is empty or has
a non-digit. -/
def digitsVal : List Char → Option Nat
  | [] => none
  | cs =>
    if cs.all (fun c => c.isDigit) then
      some (cs.foldl (fun a c => a * 10 + (c.toNat - 48)) 0)
    else
      none

/-- Python `int(s)` on strings, on the fragment exercised here:
surrounding whitespace is stripped, an optional sign precedes a nonempty
run of decimal digits; anything else raises `ValueError` (`none`). -/
def parsePyInt (s : String) : Option Int :=
  match pyStrip s.data with
  | '+' :: rest => (digitsVal rest).map Int.ofNat
  | '-' :: rest => (digitsVal rest).map (fun n => -(Int.ofNat n : Int))
  | cs => (digitsVal cs).map Int.ofNat

/-- The `__main__` block: port selection from the arguments after the
program name, returning the chosen port and the warning lines printed. -/
def selectPort (args : List String) : Int × List String :=
  match args with
  | [] => (8000, [])
  | a :: _ =>
    match parsePyInt a with
    | some n => (n, [])
    | none => (8000, ["❌ Invalid port number. Using default port 8000."])

/- Concrete filesystems used as test inputs. -/

/-- A filesystem with a single directory `assets` and nothing else. -/
def fsDir : FS :=
  fun s => if s = "assets" then some Entry.dir else none

/-- A filesystem with a single regular file `app.js`. -/
def fsApp : FS :=
  fun s => if s = "app.js" then some Entry.file else none

/-- The empty filesystem. -/
def fsEmpty : FS :=
  fun _ => none

/-- A delegate that answers 404 with no headers of its own, for use as a
concrete collaborator in tests. -/
def delegate404 : Method → String → Nat × List (String × String) :=
  fun _ _ => (404, [])

/-! ## Theorems -/

/-- Dropping the first character of a string that starts with `/`
recovers the rest, i.e. Python `("/" + s)[1:] == s`. -/
theorem strip1_slash (s : String) : strip1 ("/" ++ s) = s := by
  cases s with
  | mk data => rw [strip1, String.drop_eq]; rfl

/-- C1 counterexample: on a filesystem whose only entry is the directory
`assets`, the request path `/assets` satisfies the claimed rewrite
condition (no regular file exists at `assets`) yet the handler leaves
the path unchanged, so the handler differs from the claimed
regular-file rule. -/
theorem c1_counterexample :
    PWAHandler.do_GET fsDir "/assets" ≠ PWAHandler.do_GET_fileSpec fsDir "/assets" ∧
    ("/assets" = "/" ∨ isRegularFile fsDir (strip1 "/assets") = false) ∧
    PWAHandler.do_GET fsDir "/assets" = "/assets" := by
  refine ⟨by decide, Or.inr (by decide), by decide⟩

/-- C1 (amended): the handler's output path is `/index.html` exactly
when the request path is `/`, or no filesystem entry of any kind (file,
directory or other) exists at the location obtained by stripping the
leading `/`, or the path already is `/index.html`; in particular a path
naming an existing directory is NOT replaced. -/
theorem c1_rewrite_iff (fs : FS) (p : String) :
    PWAHandler.do_GET fs p = "/index.html" ↔
      (p = "/" ∨ osExists fs (strip1 p) = false ∨ p = "/index.html") := by
  by_cases h1 : p = "/"
  · simp [PWAHandler.do_GET, h1]
  · by_cases h2 : osExists fs (strip1 p) = false
    · simp [PWAHandler.do_GET, h1, h2]
    · have h2' : osExists fs (strip1 p) = true := by
        cases h : osExists fs (strip1 p) with
        | false => exact absurd h h2
        | true => rfl
      simp [PWAHandler.do_GET, h1, h2']

/-- C2: for every response — every filesystem, delegate, method, path and
delegate status — the final header list is the delegate's own buffered
headers followed by exactly the six fixed headers of §4.1, with their
literal values, in that order, appended before the header block is
flushed by the superclass completion step. -/
theorem c2_headers (fs : FS)
    (delegate : Method → String → Nat × List (String × String))
    (m : Method) (p : String) :
    (respond fs delegate m p).2
      = (delegate m (PWAHandler.handledPath fs m p)).2 ++ pwaHeadersSpec := by
  simp [respond, PWAHandler.end_headers, PWAHandler.sendHeader, pwaHeadersSpec]

/-- C3: when the path is not `/` and a regular file exists at the
stripped location, `do_GET` leaves the path unchanged and the GET
dispatch hands exactly that path to the delegate. -/
theorem c3_file_path_unchanged (fs : FS) (p : String)
    (h1 : p ≠ "/") (h2 : isRegularFile fs (strip1 p) = true) :
    PWAHandler.do_GET fs p = p ∧ PWAHandler.handledPath fs Method.GET p = p := by
  have hex : osExists fs (strip1 p) = true := by
    unfold isRegularFile at h2
    rw [beq_iff_eq] at h2
    unfold osExists
    rw [h2]
    rfl
  have hmain : PWAHandler.do_GET fs p = p := by
    simp [PWAHandler.do_GET, h1, hex]
  exact ⟨hmain, hmain⟩

/-- C3 witness: the file `app.js` exists, so `/app.js` is served as is. -/
theorem c3_witness :
    ("/app.js" ≠ "/") ∧ isRegularFile fsApp (strip1 "/app.js") = true ∧
    PWAHandler.do_GET fsApp "/app.js" = "/app.js" :=
  ⟨by decide, by decide,
   (c3_file_path_unchanged fsApp "/app.js" (by decide) (by decide)).1⟩

/-- C4: port selection — a first argument parsing as an integer becomes
the port with no warning; a first argument that fails to parse yields
the default 8000 together with the warning line; no argument yields 8000
with no warning. -/
theorem c4_port_selection :
    (∀ a rest n, parsePyInt a = some n → selectPort (a :: rest) = (n, [])) ∧
    (∀ a rest, parsePyInt a = none →
      selectPort (a :: rest)
        = (8000, ["❌ Invalid port number. Using default port 8000."])) ∧
    selectPort [] = (8000, []) := by
  refine ⟨?_, ?_, rfl⟩
  · intro a rest n h
    simp [selectPort, h]
  · intro a rest h
    simp [selectPort, h]

/-- C4 witness: the three scenarios of the specification, with arguments
`8080`, `abc`, and none. -/
theorem c4_witness :
    parsePyInt "8080" = some 8080 ∧ selectPort ["8080"] = (8080, []) ∧
    parsePyInt "abc" = none ∧
    selectPort ["abc"] = (8000, ["❌ Invalid port number. Using default port 8000."]) ∧
    selectPort [] = (8000, []) :=
  ⟨by decide, c4_port_selection.1 "8080" [] 8080 (by decide), by decide,
   c4_port_selection.2.1 "abc" [] (by decide), c4_port_selection.2.2⟩

/-- C5: when the bind fails with the errno the code interprets as
"address already in use" (48), the process prints a line that contains
the conflicting port number, then a line that contains the next port
number, and exits with the non-zero code 1. -/
theorem c5_port_in_use (port : Int) (msg : String) :
    Server.main port (RunEvent.bindError 48 msg)
      = (1, ["❌ Port " ++ toString port ++ " is already in use. Try a different port.",
             "💡 You can specify a different port: python3 server.py " ++ toString (port + 1)]) ∧
    (toString port).data
      <:+: ("❌ Port " ++ toString port ++ " is already in use. Try a different port.").data ∧
    (toString (port + 1)).data
      <:+: ("💡 You can specify a different port: python3 server.py " ++ toString (port + 1)).data ∧
    (1 : Int) ≠ 0 := by
  refine ⟨rfl, ?_, ?_, by decide⟩
  · exact ⟨"❌ Port ".data, " is already in use. Try a different port.".data,
      by simp [String.data_append]⟩
  · exact ⟨"💡 You can specify a different port: python3 server.py ".data, [],
      by simp [String.data_append]⟩

/-- C6: the exit code is 0 on interrupt, after the shutdown message, and
1 on every bind failure — errno 48 or any other — after at least one
diagnostic line. -/
theorem c6_exit_codes (port errno : Int) (msg : String) :
    (Server.main port RunEvent.interrupt).1 = 0 ∧
    (Server.main port RunEvent.interrupt).2 = ["\n🛑 Server stopped by user"] ∧
    (Server.main port (RunEvent.bindError errno msg)).1 = 1 ∧
    (Server.main port (RunEvent.bindError errno msg)).2 ≠ [] := by
  refine ⟨rfl, rfl, ?_, ?_⟩
  · simp only [Server.main]
    split <;> rfl
  · simp only [Server.main]
    split <;> simp

/-- C7 counterexample: at `/assets` on a filesystem whose only entry is
the directory `assets`, no regular file exists at the stripped location,
yet the handler does not rewrite to `/index.html` — the claimed
"rewrites unconditionally whenever no regular file exists" is false. -/
theorem c7_counterexample :
    isRegularFile fsDir (strip1 "/assets") = false ∧
    PWAHandler.do_GET fsDir "/assets" = "/assets" ∧
    "/assets" ≠ "/index.html" := by
  refine ⟨by decide, by decide, by decide⟩

/-- C7 (amended): whenever no filesystem entry of any kind exists at the
stripped location, the handler rewrites to `/index.html`
unconditionally, on every filesystem — including those where
`index.html` itself is absent; no error handling intervenes. -/
theorem c7_fallback_unconditional (fs : FS) (p : String)
    (h : osExists fs (strip1 p) = false) :
    PWAHandler.do_GET fs p = "/index.html" := by
  simp [PWAHandler.do_GET, h]

/-- C7 witness: on the empty filesystem, where `index.html` does not
exist either, `/missing` is still rewritten to `/index.html`. -/
theorem c7_witness :
    osExists fsEmpty (strip1 "/missing") = false ∧ fsEmpty "index.html" = none ∧
    PWAHandler.do_GET fsEmpty "/missing" = "/index.html" :=
  ⟨by decide, rfl, c7_fallback_unconditional fsEmpty "/missing" (by decide)⟩

/-- C8: on any filesystem where the empty path names no entry (always
true of `os.path.exists("")`), the handler with the explicit root test
equals the handler without it: the `p == "/"` disjunct is redundant. -/
theorem c8_root_test_redundant (fs : FS) (p : String) (h : fs "" = none) :
    PWAHandler.do_GET fs p = PWAHandler.do_GET_noRoot fs p := by
  by_cases hp : p = "/"
  · subst hp
    have hs : strip1 "/" = "" := by
      rw [strip1, String.drop_eq]
      rfl
    have hex : osExists fs (strip1 "/") = false := by
      rw [hs]
      unfold osExists
      rw [h]
      rfl
    simp [PWAHandler.do_GET, PWAHandler.do_GET_noRoot, hex]
  · simp [PWAHandler.do_GET, PWAHandler.do_GET_noRoot, hp]

/-- C8 witness: on the empty filesystem the two handler forms agree at
the root path. -/
theorem c8_witness :
    fsEmpty "" = none ∧
    PWAHandler.do_GET fsEmpty "/" = PWAHandler.do_GET_noRoot fsEmpty "/" :=
  ⟨rfl, c8_root_test_redundant fsEmpty "/" rfl⟩

/-- C9: the existence check runs on the raw request target, query string
included: when a regular file exists at `tgt` but no entry exists under
the literal name `tgt?qs`, the request `/tgt?qs` is rewritten to
`/index.html`, so the existing file is not served. -/
theorem c9_query_string_rewritten (fs : FS) (tgt qs : String)
    (_hfile : isRegularFile fs tgt = true)
    (hq : osExists fs (tgt ++ "?" ++ qs) = false) :
    PWAHandler.do_GET fs ("/" ++ (tgt ++ "?" ++ qs)) = "/index.html" := by
  simp [PWAHandler.do_GET, strip1_slash, hq]

/-- C9 witness: `app.js` exists as a regular file, yet `/app.js?v=2` is
rewritten to `/index.html`. -/
theorem c9_witness :
    isRegularFile fsApp "app.js" = true ∧
    osExists fsApp ("app.js" ++ "?" ++ "v=2") = false ∧
    PWAHandler.do_GET fsApp ("/" ++ ("app.js" ++ "?" ++ "v=2")) = "/index.html" :=
  ⟨by decide, by decide,
   c9_query_string_rewritten fsApp "app.js" "v=2" (by decide) (by decide)⟩

/-- C10: for every non-GET method the dispatched path is the original
path — no SPA rewrite — while the response headers still receive the
fixed header set; only `do_GET` is overridden. -/
theorem c10_non_get_passthrough (fs : FS)
    (delegate : Method → String → Nat × List (String × String))
    (m : Method) (p : String) (h : m ≠ Method.GET) :
    PWAHandler.handledPath fs m p = p ∧
    respond fs delegate m p = ((delegate m p).1, (delegate m p).2 ++ pwaHeadersSpec) := by
  have hm : PWAHandler.handledPath fs m p = p := by
    cases m with
    | GET => exact absurd rfl h
    | HEAD => rfl
    | POST => rfl
    | OPTIONS => rfl
    | other => rfl
  refine ⟨hm, ?_⟩
  simp [respond, hm, PWAHandler.end_headers, PWAHandler.sendHeader, pwaHeadersSpec]

/-- C10 witness: a HEAD request for `/` reaches the delegate with the
path unrewritten (a GET for `/` would be rewritten), gets the delegate's
default 404, and still carries the injected headers. -/
theorem c10_witness :
    PWAHandler.handledPath fsEmpty Method.HEAD "/" = "/" ∧
    PWAHandler.do_GET fsEmpty "/" = "/index.html" ∧
    respond fsEmpty delegate404 Method.HEAD "/" = (404, pwaHeadersSpec) := by
  have h := c10_non_get_passthrough fsEmpty delegate404 Method.HEAD "/" (by decide)
  refine ⟨h.1, by decide, ?_⟩
  have h2 := h.2
  simpa [delegate404] using h2
